import Mathlib

/-
Verification of the goose session-storage slice: the tool classifier
(crates/goose/src/session/tool_classifier.rs) and the session manager
(crates/goose/src/session/session_manager.rs).

Strings are modelled as lists of characters (`Str`).  Rust's
`str::to_lowercase` is modelled character-wise via `Char.toLower`; this
agrees with Rust on ASCII text, which is all the classifier keywords use.
JSON argument maps are modelled as association lists whose values are
either strings or some other JSON value (`Jsonv.vother`), since the
classifier only ever inspects values through `as_str` and key presence.
-/

abbrev Str := List Char

/- `str::contains`: `n` occurs as a contiguous substring of `h`. -/
def strContains (h n : Str) : Bool :=
  match h with
  | [] => n.isEmpty
  | _ :: t => n.isPrefixOf h || strContains t n

/- Character-wise lowercasing, the model of `str::to_lowercase`. -/
def toLowerStr (s : Str) : Str := s.map Char.toLower

/- `str::split_once`: split at the first occurrence of `sep`. -/
def splitOnce (sep s : Str) : Option (Str × Str) :=
  if sep.isPrefixOf s then some ([], s.drop sep.length)
  else
    match s with
    | [] => none
    | c :: t => (splitOnce sep t).map (fun p => (c :: p.1, p.2))

/- A JSON value as seen by the classifier: a string, or anything else. -/
inductive Jsonv where
  | vstr (s : Str)
  | vother
deriving DecidableEq, Repr

def Jsonv.asStr : Jsonv → Option Str
  | .vstr s => some s
  | .vother => none

/- `serde_json::Map<String, Value>` as an association list. -/
abbrev Args := List (Str × Jsonv)

def argsGet (args : Args) (key : Str) : Option Jsonv :=
  match args with
  | [] => none
  | (k, v) :: rest => if k = key then some v else argsGet rest key

def containsKey (args : Args) (key : Str) : Bool := (argsGet args key).isSome

/- `ToolOperation` from tool_classifier.rs. -/
inductive ToolOperation where
  | fileCreate
  | fileEdit
  | fileRead
  | fileDelete
  | commandExecute
  | search
  | navigate
  | other (name : Str)
deriving DecidableEq, Repr

/- `ToolMetadata` from tool_classifier.rs. -/
structure ToolMetadata where
  file_path : Option Str := none
  command : Option Str := none
  query : Option Str := none
deriving DecidableEq, Repr

/- `ClassifiedTool` from tool_classifier.rs. -/
structure ClassifiedTool where
  original_name : Str
  operation : ToolOperation
  extension : Option Str
  metadata : ToolMetadata
deriving DecidableEq, Repr

/- `ClassifiedTool::metrics_name`. -/
def ClassifiedTool.metricsName (ct : ClassifiedTool) : Str :=
  match ct.operation with
  | .fileCreate => ("file_create".data)
  | .fileEdit => ("file_edit".data)
  | .fileRead => ("file_read".data)
  | .fileDelete => ("file_delete".data)
  | .commandExecute => ("command_execute".data)
  | .search => ("search".data)
  | .navigate => ("navigate".data)
  | .other name => name

/- `ClassifiedTool::detailed_name`. -/
def ClassifiedTool.detailedName (ct : ClassifiedTool) : Str :=
  match ct.extension with
  | some ext => ext ++ ("::".data) ++ ct.metricsName
  | none => ct.metricsName

/- `extract_extension_and_name`: double-underscore first, then double-colon. -/
def extractExtensionAndName (toolName : Str) : Option Str × Str :=
  match splitOnce ("__".data) toolName with
  | some (ext, name) => (some ext, name)
  | none =>
    match splitOnce ("::".data) toolName with
    | some (ext, name) => (some ext, name)
    | none => (none, toolName)

/- `classify_by_name`: ordered substring rules on the lower-cased name. -/
def classifyByName (name : Str) : ToolOperation :=
  let nameLower := toLowerStr name
  if strContains nameLower ("create".data) &&
      (strContains nameLower ("file".data) || strContains nameLower ("write".data)) then
    .fileCreate
  else if strContains nameLower ("edit".data) || strContains nameLower ("modify".data) ||
      strContains nameLower ("update".data) || strContains nameLower ("replace".data) ||
      strContains nameLower ("patch".data) then
    .fileEdit
  else if strContains nameLower ("read".data) || strContains nameLower ("view".data) ||
      strContains nameLower ("cat".data) || strContains nameLower ("show".data) then
    .fileRead
  else if strContains nameLower ("delete".data) || strContains nameLower ("remove".data) ||
      strContains nameLower ("rm".data) then
    .fileDelete
  else if strContains nameLower ("execute".data) || strContains nameLower ("run".data) ||
      strContains nameLower ("command".data) || strContains nameLower ("shell".data) ||
      strContains nameLower ("bash".data) then
    .commandExecute
  else if strContains nameLower ("search".data) || strContains nameLower ("find".data) ||
      strContains nameLower ("query".data) then
    .search
  else if strContains nameLower ("navigate".data) || strContains nameLower ("goto".data) ||
      strContains nameLower ("open".data) then
    .navigate
  else
    .other name

/-
Trailing search fallback of `classify_by_arguments` (the code reaches it by
falling through the earlier early-return branches, carrying the metadata
accumulated so far).
-/
def searchArgFallback (toolName : Str) (args : Args) (md : ToolMetadata) :
    ToolOperation × ToolMetadata :=
  match ((argsGet args ("query".data)).orElse
      (fun _ => argsGet args ("search".data))).bind Jsonv.asStr with
  | some q => (.search, { md with query := some q })
  | none => (.other toolName, md)

/- `classify_by_arguments`, with the Rust early returns as nested matches. -/
def classifyByArguments (toolName : Str) (arguments : Option Args) :
    ToolOperation × ToolMetadata :=
  match arguments with
  | none => (.other toolName, {})
  | some args =>
    let editorStep : Option (ToolOperation × ToolMetadata) :=
      if toolName = ("text_editor".data) || strContains toolName ("editor".data) then
        match (argsGet args ("command".data)).bind Jsonv.asStr with
        | some command =>
          let md : ToolMetadata := { file_path := (argsGet args ("path".data)).bind Jsonv.asStr }
          if command = ("write".data) || command = ("create".data) then
            some (.fileCreate, md)
          else if command = ("edit".data) || command = ("replace".data) ||
              command = ("str_replace".data) then
            some (.fileEdit, md)
          else if command = ("view".data) || command = ("read".data) then
            some (.fileRead, md)
          else
            some (.other (("text_editor_".data) ++ command), md)
        | none => none
      else none
    match editorStep with
    | some r => r
    | none =>
      if toolName = ("shell".data) || toolName = ("bash".data) ||
          strContains toolName ("command".data) then
        (.commandExecute, { command := (argsGet args ("command".data)).bind Jsonv.asStr })
      else
        match (argsGet args ("path".data)).orElse (fun _ => argsGet args ("file".data))
            |>.orElse (fun _ => argsGet args ("filename".data)) with
        | some pathVal =>
          let md : ToolMetadata := { file_path := pathVal.asStr }
          match ((argsGet args ("operation".data)).orElse
              (fun _ => argsGet args ("action".data))).bind Jsonv.asStr with
          | some op =>
            if op = ("create".data) || op = ("write".data) then (.fileCreate, md)
            else if op = ("edit".data) || op = ("modify".data) || op = ("update".data) then
              (.fileEdit, md)
            else if op = ("read".data) || op = ("view".data) then (.fileRead, md)
            else if op = ("delete".data) || op = ("remove".data) then (.fileDelete, md)
            else (.other (("file_".data) ++ op), md)
          | none =>
            if containsKey args ("content".data) || containsKey args ("text".data) then
              (.fileCreate, md)
            else
              searchArgFallback toolName args md
        | none => searchArgFallback toolName args {}

/- `extract_metadata`: best-effort field extraction from arguments. -/
def extractMetadata (_toolName : Str) (arguments : Option Args) : ToolMetadata :=
  match arguments with
  | none => {}
  | some args =>
    { file_path := ((argsGet args ("path".data)).orElse (fun _ => argsGet args ("file".data))
        |>.orElse (fun _ => argsGet args ("filename".data))).bind Jsonv.asStr
      command := ((argsGet args ("command".data)).orElse
        (fun _ => argsGet args ("cmd".data))).bind Jsonv.asStr
      query := ((argsGet args ("query".data)).orElse
        (fun _ => argsGet args ("search".data))).bind Jsonv.asStr }

/- `classify_tool`: name-based classification first, arguments as fallback. -/
def classifyTool (toolName : Str) (arguments : Option Args) : ClassifiedTool :=
  let en := extractExtensionAndName toolName
  let operation := classifyByName en.2
  let opMd :=
    match operation with
    | .other _ => classifyByArguments en.2 arguments
    | _ => (operation, extractMetadata en.2 arguments)
  { original_name := toolName
    operation := opMd.1
    extension := en.1
    metadata := opMd.2 }

/- The arguments of the `test_classify_text_editor_write` unit test. -/
def textEditorWriteArgs : Args :=
  [(("command".data), Jsonv.vstr ("write".data)),
   (("path".data), Jsonv.vstr ("/t.txt".data)),
   (("content".data), Jsonv.vstr ("x".data))]

/-
Session id allocation (SessionManager::create_session).

The sessions table is abstracted to the list of its session ids.  The SQL
query `SELECT MAX(CAST(SUBSTR(id, 10) AS INTEGER)) FROM sessions WHERE id
LIKE '<today>_%'` is modelled by `likeMatch` (SQLite LIKE with `%`/`_`
wildcards and ASCII case folding), `castTextToInt` (SQLite CAST of text to
INTEGER: optional sign then leading decimal digits, 0 when there are none)
and `sqlMaxInt` (SQL MAX, NULL on the empty set).  `format!("{}_{}", today,
max_idx + 1)` renders the successor with `intRepr`.
-/

def isDigitCh (c : Char) : Bool := 48 ≤ c.toNat && c.toNat ≤ 57

def likeMatch (p s : Str) : Bool :=
  match p, s with
  | [], s => s.isEmpty
  | c :: ps, s =>
    if c = '%' then
      likeMatch ps s ||
        (match s with
         | [] => false
         | _ :: t => likeMatch (c :: ps) t)
    else
      match s with
      | [] => false
      | d :: t =>
        if c = '_' then likeMatch ps t
        else (c.toLower == d.toLower) && likeMatch ps t
termination_by (p.length, s.length)

def digitChar : Nat → Char
  | 0 => '0'
  | 1 => '1'
  | 2 => '2'
  | 3 => '3'
  | 4 => '4'
  | 5 => '5'
  | 6 => '6'
  | 7 => '7'
  | 8 => '8'
  | _ => '9'

def digitVal (c : Char) : Nat := c.toNat - 48

/- Decimal digits of `n`, most significant first; fuelled so that it reduces
definitionally (the fuel `n + 1` always suffices). -/
def natDigitsRec : Nat → Nat → Str
  | 0, _ => []
  | fuel + 1, n =>
    if n < 10 then [digitChar n] else natDigitsRec fuel (n / 10) ++ [digitChar (n % 10)]

def natDigits (n : Nat) : Str := natDigitsRec (n + 1) n

def digitsToNat (s : Str) : Nat := s.foldl (fun a c => 10 * a + digitVal c) 0

def castTextToInt (s : Str) : Int :=
  match s with
  | [] => 0
  | c :: rest =>
    if c = '-' then -(digitsToNat (rest.takeWhile isDigitCh) : Int)
    else if c = '+' then (digitsToNat (rest.takeWhile isDigitCh) : Int)
    else (digitsToNat ((c :: rest).takeWhile isDigitCh) : Int)

def sqlMaxInt : List Int → Option Int
  | [] => none
  | x :: xs => some (xs.foldl max x)

def intRepr (i : Int) : Str :=
  if i < 0 then '-' :: natDigits i.natAbs else natDigits i.toNat

/- The id allocation performed inside the create_session transaction:
read the day's max suffix, then insert `<day>_<max + 1>`. -/
def createSessionId (day : Str) (ids : List Str) : Str :=
  let pattern := day ++ ['_', '%']
  let matched := ids.filter (fun id => likeMatch pattern id)
  let maxIdx : Int := (sqlMaxInt (matched.map (fun id => castTextToInt (id.drop 9)))).getD 0
  day ++ '_' :: intRepr (maxIdx + 1)

/- Spec-side reading of "the maximum numeric suffix among that day's
existing session ids": parse the suffix of each id of that day. -/
def sessionIdSuffix (day : Str) (id : Str) : Option Nat :=
  if id.take 9 = day ++ ['_'] then some (digitsToNat (id.drop 9)) else none

def dayMaxSuffix (day : Str) (ids : List Str) : Nat :=
  (ids.filterMap (sessionIdSuffix day)).foldl max 0

/- A well-formed session id: an 8-digit day, an underscore, and a decimal
numeric suffix. -/
def wellFormedSessionId (id : Str) : Prop :=
  ∃ d n, d.length = 8 ∧ (∀ c ∈ d, isDigitCh c = true) ∧ id = d ++ '_' :: natDigits n

/-
Session records and the deferred-apply update builder
(SessionUpdateBuilder and SessionStorage::apply_update).

A session row carries the column values of the `sessions` table;
`extension_data` and `recipe_json` are opaque serialized blobs modelled as
strings.  The builder mirrors the Rust struct: a plain optional for the
always-non-null columns, a doubled optional (set / set-to-null /
set-to-value) for the nullable ones.
-/

structure SessionRow where
  id : Str
  description : Str
  working_dir : Str
  created_at : Str
  updated_at : Str
  extension_data : Str
  total_tokens : Option Int
  input_tokens : Option Int
  output_tokens : Option Int
  accumulated_total_tokens : Option Int
  accumulated_input_tokens : Option Int
  accumulated_output_tokens : Option Int
  schedule_id : Option Str
  recipe_json : Option Str
deriving DecidableEq, Repr

structure SessionUpdateBuilder where
  session_id : Str
  description : Option Str := none
  working_dir : Option Str := none
  extension_data : Option Str := none
  total_tokens : Option (Option Int) := none
  input_tokens : Option (Option Int) := none
  output_tokens : Option (Option Int) := none
  accumulated_total_tokens : Option (Option Int) := none
  accumulated_input_tokens : Option (Option Int) := none
  accumulated_output_tokens : Option (Option Int) := none
  schedule_id : Option (Option Str) := none
  recipe : Option (Option Str) := none
deriving DecidableEq, Repr

/- `SessionUpdateBuilder::new`: every field unset. -/
def SessionUpdateBuilder.new (sessionId : Str) : SessionUpdateBuilder :=
  { session_id := sessionId }

def SessionUpdateBuilder.setDescription (b : SessionUpdateBuilder) (v : Str) :
    SessionUpdateBuilder := { b with description := some v }

def SessionUpdateBuilder.setWorkingDir (b : SessionUpdateBuilder) (v : Str) :
    SessionUpdateBuilder := { b with working_dir := some v }

def SessionUpdateBuilder.setExtensionData (b : SessionUpdateBuilder) (v : Str) :
    SessionUpdateBuilder := { b with extension_data := some v }

def SessionUpdateBuilder.setTotalTokens (b : SessionUpdateBuilder) (v : Option Int) :
    SessionUpdateBuilder := { b with total_tokens := some v }

def SessionUpdateBuilder.setInputTokens (b : SessionUpdateBuilder) (v : Option Int) :
    SessionUpdateBuilder := { b with input_tokens := some v }

def SessionUpdateBuilder.setOutputTokens (b : SessionUpdateBuilder) (v : Option Int) :
    SessionUpdateBuilder := { b with output_tokens := some v }

def SessionUpdateBuilder.setAccumulatedTotalTokens (b : SessionUpdateBuilder) (v : Option Int) :
    SessionUpdateBuilder := { b with accumulated_total_tokens := some v }

def SessionUpdateBuilder.setAccumulatedInputTokens (b : SessionUpdateBuilder) (v : Option Int) :
    SessionUpdateBuilder := { b with accumulated_input_tokens := some v }

def SessionUpdateBuilder.setAccumulatedOutputTokens (b : SessionUpdateBuilder) (v : Option Int) :
    SessionUpdateBuilder := { b with accumulated_output_tokens := some v }

def SessionUpdateBuilder.setScheduleId (b : SessionUpdateBuilder) (v : Option Str) :
    SessionUpdateBuilder := { b with schedule_id := some v }

def SessionUpdateBuilder.setRecipe (b : SessionUpdateBuilder) (v : Option Str) :
    SessionUpdateBuilder := { b with recipe := some v }

/- One `<column> = ?` fragment of the partial UPDATE, with its bound value. -/
inductive FieldUpdate where
  | description (v : Str)
  | working_dir (v : Str)
  | extension_data (v : Str)
  | total_tokens (v : Option Int)
  | input_tokens (v : Option Int)
  | output_tokens (v : Option Int)
  | accumulated_total_tokens (v : Option Int)
  | accumulated_input_tokens (v : Option Int)
  | accumulated_output_tokens (v : Option Int)
  | schedule_id (v : Option Str)
  | recipe_json (v : Option Str)
deriving DecidableEq, Repr

def optUpdate {α} (o : Option α) (f : α → FieldUpdate) : List FieldUpdate :=
  match o with
  | some v => [f v]
  | none => []

/- The `add_update!` sequence of apply_update, in source order. -/
def collectUpdates (b : SessionUpdateBuilder) : List FieldUpdate :=
  optUpdate b.description .description ++
  optUpdate b.working_dir .working_dir ++
  optUpdate b.extension_data .extension_data ++
  optUpdate b.total_tokens .total_tokens ++
  optUpdate b.input_tokens .input_tokens ++
  optUpdate b.output_tokens .output_tokens ++
  optUpdate b.accumulated_total_tokens .accumulated_total_tokens ++
  optUpdate b.accumulated_input_tokens .accumulated_input_tokens ++
  optUpdate b.accumulated_output_tokens .accumulated_output_tokens ++
  optUpdate b.schedule_id .schedule_id ++
  optUpdate b.recipe .recipe_json

/- Applying one `column = ?` assignment to the targeted row. -/
def applyField (s : SessionRow) : FieldUpdate → SessionRow
  | .description v => { s with description := v }
  | .working_dir v => { s with working_dir := v }
  | .extension_data v => { s with extension_data := v }
  | .total_tokens v => { s with total_tokens := v }
  | .input_tokens v => { s with input_tokens := v }
  | .output_tokens v => { s with output_tokens := v }
  | .accumulated_total_tokens v => { s with accumulated_total_tokens := v }
  | .accumulated_input_tokens v => { s with accumulated_input_tokens := v }
  | .accumulated_output_tokens v => { s with accumulated_output_tokens := v }
  | .schedule_id v => { s with schedule_id := v }
  | .recipe_json v => { s with recipe_json := v }

/- SessionStorage::apply_update on the targeted row: early `Ok(())` return
when no field was set, otherwise the collected partial update plus the
trailing `updated_at = datetime('now')` assignment. -/
def applyUpdateRow (b : SessionUpdateBuilder) (now : Str) (s : SessionRow) : SessionRow :=
  let updates := collectUpdates b
  if updates.isEmpty then s
  else { updates.foldl applyField s with updated_at := now }

/-
Conversation messages (SessionStorage::add_message / get_conversation).

The `messages` table is abstracted to the list of its rows.  `content_json`
is either a valid serialized payload (serde_json round-trips unchanged on
the image of to_string, so the payload is kept as an opaque string) or a
malformed blob, which `serde_json::from_str` rejects with `?`.  The
storage-assigned `timestamp` column is a natural number and `ORDER BY
timestamp` is modelled by insertion sort on it.
-/

inductive Role where
  | user
  | assistant
deriving DecidableEq, Repr

/- role_to_string from session_manager.rs. -/
def roleToString : Role → Str
  | .user => ("user".data)
  | .assistant => ("assistant".data)

/- A stored content_json blob: a payload that deserializes back to itself,
or a blob that fails deserialization. -/
inductive StoredContent where
  | valid (payload : Str)
  | malformed
deriving DecidableEq, Repr

structure Message where
  role : Role
  created : Int
  content : Str
deriving DecidableEq, Repr

structure MessageRow where
  session_id : Str
  role : Str
  content_json : StoredContent
  created_timestamp : Int
  timestamp : Nat
  tokens : Option Int
deriving DecidableEq, Repr

/- The row inserted by add_message (`tokens` is not in the column list and
stays NULL; `timestamp` is the storage-assigned insertion timestamp). -/
def mkMessageRow (sessionId : Str) (m : Message) (ts : Nat) : MessageRow :=
  { session_id := sessionId, role := roleToString m.role,
    content_json := .valid m.content, created_timestamp := m.created,
    timestamp := ts, tokens := none }

/- SessionStorage::add_message: a single-row INSERT (the updated_at bump
touches the sessions table and is outside this model). -/
def addMessage (rows : List MessageRow) (sessionId : Str) (m : Message) (ts : Nat) :
    List MessageRow :=
  rows ++ [mkMessageRow sessionId m ts]

/- The get_conversation row loop: an unknown role is skipped with
`continue`; malformed content fails the whole read via `?`. -/
def rowsToMessages : List MessageRow → Except Unit (List Message)
  | [] => .ok []
  | r :: rest =>
    if r.role = ("user".data) then
      match r.content_json with
      | .valid c =>
        (rowsToMessages rest).map
          (fun ms => { role := Role.user, created := r.created_timestamp, content := c } :: ms)
      | .malformed => .error ()
    else if r.role = ("assistant".data) then
      match r.content_json with
      | .valid c =>
        (rowsToMessages rest).map
          (fun ms => { role := Role.assistant, created := r.created_timestamp,
                       content := c } :: ms)
      | .malformed => .error ()
    else
      rowsToMessages rest

/- SessionStorage::get_conversation: WHERE session_id = ? ORDER BY
timestamp, then the parsing loop. -/
def getConversation (rows : List MessageRow) (sessionId : Str) :
    Except Unit (List Message) :=
  rowsToMessages
    (List.insertionSort (fun u v => u.timestamp ≤ v.timestamp)
      (rows.filter (fun r => r.session_id == sessionId)))

/-
Tool events ledger (record_tool_start / record_tool_complete /
get_tool_stats).

The `tool_events` table is abstracted to the list of its rows.  Times are
rationals measured in julian days (the unit `julianday` yields), so
`duration_ms` is CAST((julianday(now) - julianday(started_at)) * 86400000
AS INTEGER) with CAST truncating toward zero; SQL AVG is exact rational
arithmetic here, standing in for SQLite's floating point.
-/

structure ToolEventRow where
  id : Nat
  session_id : Str
  tool_name : Str
  status : Str
  error_message : Option Str
  started_at : ℚ
  completed_at : Option ℚ
  duration_ms : Option Int
  operation_type : Option Str
  file_path : Option Str
deriving DecidableEq, Repr

/- CAST(q AS INTEGER): truncation toward zero. -/
def ratTruncToInt (q : ℚ) : Int := if q < 0 then -(Int.floor (-q)) else Int.floor q

/- record_tool_start: INSERT of a fresh `running` row whose id is
last_insert_rowid. -/
def recordToolStart (rows : List ToolEventRow) (newId : Nat) (sessionId toolName : Str)
    (operationType filePath : Option Str) (now : ℚ) : List ToolEventRow :=
  rows ++ [{ id := newId, session_id := sessionId, tool_name := toolName,
             status := ("running".data), error_message := none, started_at := now,
             completed_at := none, duration_ms := none, operation_type := operationType,
             file_path := filePath }]

/- The UPDATE ... WHERE id = ? of record_tool_complete applied row-wise. -/
def completeUpdateRows (rows : List ToolEventRow) (eventId : Nat) (status : Str)
    (errorMessage : Option Str) (now : ℚ) : List ToolEventRow :=
  rows.map fun r =>
    if r.id = eventId then
      { r with status := status, error_message := errorMessage, completed_at := some now,
               duration_ms := some (ratTruncToInt ((now - r.started_at) * 86400000)) }
    else r

/- record_tool_complete: the UPDATE succeeds whether or not any row
matches and regardless of the matched row's current status. -/
def recordToolComplete (rows : List ToolEventRow) (eventId : Nat) (status : Str)
    (errorMessage : Option Str) (now : ℚ) : Except Unit (List ToolEventRow) :=
  .ok (completeUpdateRows rows eventId status errorMessage now)

/- SQL AVG over the selected values: NULL on the empty selection. -/
def sqlAvg (l : List ℚ) : Option ℚ :=
  match l with
  | [] => none
  | _ => some (l.sum / l.length)

/- GROUP BY key + COUNT(*), keys in first-appearance order. -/
def groupCount (keys : List Str) : List (Str × Nat) :=
  keys.eraseDups.map (fun k => (k, keys.count k))

structure ToolStats where
  total_calls : Nat
  successful_calls : Nat
  failed_calls : Nat
  cancelled_calls : Nat
  avg_duration_ms : ℚ
  calls_by_tool : List (Str × Nat)
  calls_by_operation : List (Str × Nat)
  file_operations : List (Str × Str × ℚ)
deriving DecidableEq, Repr

/- SessionStorage::get_tool_stats: the four COUNT/SUM-CASE queries, the AVG
over non-null durations with unwrap_or(0.0), the two GROUP BYs and the
file-operation timeline ordered by started_at. -/
def getToolStats (rows : List ToolEventRow) (sessionId : Str) : ToolStats :=
  let sess := rows.filter (fun r => r.session_id == sessionId)
  let durations := (sess.filter (fun r => r.duration_ms.isSome)).filterMap
      (fun r => r.duration_ms.map (fun d : Int => (d : ℚ)))
  { total_calls := sess.length
    successful_calls := (sess.filter (fun r => r.status == ("success".data))).length
    failed_calls := (sess.filter (fun r => r.status == ("error".data))).length
    cancelled_calls := (sess.filter (fun r => r.status == ("cancelled".data))).length
    avg_duration_ms := (sqlAvg durations).getD 0
    calls_by_tool := groupCount (sess.map (fun r => r.tool_name))
    calls_by_operation := groupCount (sess.filterMap (fun r => r.operation_type))
    file_operations :=
      (List.insertionSort (fun u v => u.started_at ≤ v.started_at)
          (sess.filter (fun r => r.file_path.isSome && r.operation_type.isSome))).filterMap
        (fun r => r.file_path.bind
          (fun p => r.operation_type.map (fun o => (p, o, r.started_at)))) }

/- Spec-side reading of the C6 average: the arithmetic mean of duration_ms
over the session's events with a non-null duration, 0 when none exist. -/
def specAvgDuration (rows : List ToolEventRow) (sessionId : Str) : ℚ :=
  let ds := (rows.filter (fun r => r.session_id == sessionId)).filterMap
      (fun r => r.duration_ms)
  if ds.isEmpty then 0 else ((ds.map (fun d : Int => (d : ℚ))).sum) / ds.length

/-
Schema migrations (SessionStorage::run_migrations / apply_migration).

The schema state tracks the structures the three migrations touch;
CREATE TABLE without IF NOT EXISTS, ALTER TABLE ADD COLUMN and CREATE
INDEX fail on an existing object, as in SQLite.  `version_log` is the
append-only schema_version table.
-/

inductive MigrationError where
  | unknownVersion (version : Nat)
  | duplicateTable
  | duplicateColumn
  | duplicateIndex
  | missingTable
deriving DecidableEq, Repr

structure DbSchema where
  hasSchemaVersionTable : Bool
  hasToolEventsTable : Bool
  toolEventsHasOperationType : Bool
  toolEventsHasFilePath : Bool
  indexes : List Str
  versionLog : List Nat
deriving DecidableEq, Repr

def idxToolEventsSession : Str := "idx_tool_events_session".data

def idxToolEventsToolName : Str := "idx_tool_events_tool_name".data

def idxToolEventsStatus : Str := "idx_tool_events_status".data

def idxToolEventsOperation : Str := "idx_tool_events_operation".data

def idxToolEventsFilePath : Str := "idx_tool_events_file_path".data

def createIndex (name : Str) (db : DbSchema) : Except MigrationError DbSchema :=
  if name ∈ db.indexes then .error .duplicateIndex
  else .ok { db with indexes := db.indexes ++ [name] }

def CURRENT_SCHEMA_VERSION : Nat := 3

/- SessionStorage::apply_migration: the three known migrations, anything
else bails with "Unknown migration version". -/
def applyMigration (version : Nat) (db : DbSchema) : Except MigrationError DbSchema :=
  match version with
  | 1 => .ok { db with hasSchemaVersionTable := true }
  | 2 =>
    if db.hasToolEventsTable then .error .duplicateTable
    else
      match createIndex idxToolEventsSession { db with hasToolEventsTable := true } with
      | .error e => .error e
      | .ok db1 =>
        match createIndex idxToolEventsToolName db1 with
        | .error e => .error e
        | .ok db2 => createIndex idxToolEventsStatus db2
  | 3 =>
    if !db.hasToolEventsTable then .error .missingTable
    else if db.toolEventsHasOperationType then .error .duplicateColumn
    else if db.toolEventsHasFilePath then .error .duplicateColumn
    else
      match createIndex idxToolEventsOperation
          { db with toolEventsHasOperationType := true, toolEventsHasFilePath := true } with
      | .error e => .error e
      | .ok db1 => createIndex idxToolEventsFilePath db1
  | v => .error (.unknownVersion v)

/- INSERT INTO schema_version after a successful migration step. -/
def recordVersion (version : Nat) (db : DbSchema) : DbSchema :=
  { db with versionLog := db.versionLog ++ [version] }

/- get_schema_version: 0 when the table does not exist, else MAX(version).
(The code would fail decoding NULL on an existent empty table; that edge is
outside the claims.) -/
def getSchemaVersion (db : DbSchema) : Nat :=
  if db.hasSchemaVersionTable then db.versionLog.foldl max 0 else 0

/- The body of `for version in (current + 1)..=CURRENT_SCHEMA_VERSION`:
apply each version in sequence, recording it right after it succeeds. -/
def migrateSeq (versions : List Nat) (db : DbSchema) : Except MigrationError DbSchema :=
  match versions with
  | [] => .ok db
  | v :: rest =>
    match applyMigration v db with
    | .error e => .error e
    | .ok db' => migrateSeq rest (recordVersion v db')

/- SessionStorage::run_migrations. -/
def runMigrations (db : DbSchema) : Except MigrationError DbSchema :=
  if getSchemaVersion db < CURRENT_SCHEMA_VERSION then
    migrateSeq
      (List.range' (getSchemaVersion db + 1)
        (CURRENT_SCHEMA_VERSION - getSchemaVersion db)) db
  else .ok db

/- A fresh schemaless database (migration source state, version 0). -/
def freshMigrationDb : DbSchema :=
  { hasSchemaVersionTable := false, hasToolEventsTable := false,
    toolEventsHasOperationType := false, toolEventsHasFilePath := false,
    indexes := [], versionLog := [] }

/- The state after migrating freshMigrationDb to version 3. -/
def migratedDb : DbSchema :=
  { hasSchemaVersionTable := true, hasToolEventsTable := true,
    toolEventsHasOperationType := true, toolEventsHasFilePath := true,
    indexes := [idxToolEventsSession, idxToolEventsToolName, idxToolEventsStatus,
                idxToolEventsOperation, idxToolEventsFilePath],
    versionLog := [1, 2, 3] }

/-
Session insights (SessionStorage::get_insights):
SELECT COUNT(*), COALESCE(SUM(COALESCE(accumulated_total_tokens,
total_tokens, 0)), 0) FROM sessions.
-/

/- COALESCE(accumulated_total_tokens, total_tokens, 0). -/
def coalesceTokens (r : SessionRow) : Int :=
  match r.accumulated_total_tokens with
  | some t => t
  | none =>
    match r.total_tokens with
    | some t => t
    | none => 0

/- SQL SUM aggregate: NULL on the empty set. -/
def sqlSumInt (l : List Int) : Option Int :=
  match l with
  | [] => none
  | _ => some l.sum

structure SessionInsights where
  total_sessions : Nat
  total_tokens : Int
deriving DecidableEq, Repr

def getInsights (rows : List SessionRow) : SessionInsights :=
  { total_sessions := rows.length
    total_tokens := (sqlSumInt (rows.map coalesceTokens)).getD 0 }

lemma strContains_iff (h n : Str) :
    strContains h n = true ↔ ∃ pre suf, h = pre ++ n ++ suf := by
  induction h with
  | nil =>
    simp only [strContains, List.isEmpty_iff]
    constructor
    · intro hn
      exact ⟨[], [], by simp [hn]⟩
    · rintro ⟨pre, suf, hps⟩
      rcases List.append_eq_nil.mp (List.append_eq_nil.mp hps.symm).1 with ⟨-, h2⟩
      exact h2
  | cons c t ih =>
    simp only [strContains, Bool.or_eq_true, ih, List.isPrefixOf_iff_prefix]
    constructor
    · rintro (⟨suf, hsuf⟩ | ⟨pre, suf, rfl⟩)
      · exact ⟨[], suf, by simp [hsuf]⟩
      · exact ⟨c :: pre, suf, rfl⟩
    · rintro ⟨pre, suf, hps⟩
      cases pre with
      | nil =>
        left
        exact ⟨suf, by simpa using hps.symm⟩
      | cons a pre' =>
        right
        rw [List.cons_append, List.cons_append] at hps
        injection hps with h1 h2
        exact ⟨pre', suf, h2⟩

lemma strContains_mono (h n m a b : Str) (hm : m = a ++ n ++ b) :
    strContains h m = true → strContains h n = true := by
  intro hc
  rcases (strContains_iff h m).mp hc with ⟨pre, suf, rfl⟩
  subst hm
  exact (strContains_iff _ n).mpr ⟨pre ++ a, b ++ suf, by simp⟩

lemma toLowerStr_contains (s n : Str) :
    strContains s n = true → strContains (toLowerStr s) (toLowerStr n) = true := by
  intro hc
  rcases (strContains_iff s n).mp hc with ⟨pre, suf, rfl⟩
  exact (strContains_iff _ _).mpr ⟨toLowerStr pre, toLowerStr suf, by simp [toLowerStr]⟩

/-- Claim C2: for every tool name whose base name (after stripping an optional
extension prefix) contains the substring "editor" and whose lower-cased base
name does not satisfy the create-plus-file-or-write rule, `classify_tool`
returns FileEdit for every arguments value: the name-based rule for "edit"
already matches, so the argument-based editor dispatch is never reached. -/
theorem editor_named_tools_always_file_edit (toolName : Str) (args : Option Args)
    (hedit : strContains (extractExtensionAndName toolName).2 ("editor".data) = true)
    (hnotcreate :
      (strContains (toLowerStr (extractExtensionAndName toolName).2) ("create".data) &&
        (strContains (toLowerStr (extractExtensionAndName toolName).2) ("file".data) ||
          strContains (toLowerStr (extractExtensionAndName toolName).2) ("write".data))) = false) :
    (classifyTool toolName args).operation = ToolOperation.fileEdit := by
  have hlow : strContains (toLowerStr (extractExtensionAndName toolName).2)
      (toLowerStr ("editor".data)) = true :=
    toLowerStr_contains _ _ hedit
  have hlow' : strContains (toLowerStr (extractExtensionAndName toolName).2)
      ("editor".data) = true := by
    simpa [show toLowerStr ("editor".data) = ("editor".data) from by decide] using hlow
  have hedit' : strContains (toLowerStr (extractExtensionAndName toolName).2)
      ("edit".data) = true :=
    strContains_mono _ _ _ [] ("or".data) (by decide) hlow'
  simp only [classifyTool, classifyByName, hnotcreate, hedit', Bool.false_eq_true,
    if_false, Bool.true_or, if_true]

/-- Witness for C2: a tool named "my_editor" with a `command: write` argument
(which the argument-based dispatch would map to FileCreate) is still FileEdit. -/
theorem editor_named_tools_always_file_edit_witness :
    (classifyTool ("my_editor".data)
      (some [(("command".data), Jsonv.vstr ("write".data))])).operation =
      ToolOperation.fileEdit :=
  editor_named_tools_always_file_edit _ _ (by decide) (by decide)

/-- Claim C1 (counter-evaluation): on tool name "text_editor" with arguments
`{"command":"write","path":"/t.txt","content":"x"}`, the code returns
FileEdit, not FileCreate as the spec and the repository's own unit test
`test_classify_text_editor_write` state: name-based classification matches
the substring "edit" inside "text_editor" before the argument dispatch runs.
The captured metadata file_path is "/t.txt" as stated. -/
theorem text_editor_write_is_misclassified :
    (classifyTool ("text_editor".data) (some textEditorWriteArgs)).operation =
      ToolOperation.fileEdit ∧
    (classifyTool ("text_editor".data) (some textEditorWriteArgs)).operation ≠
      ToolOperation.fileCreate ∧
    (classifyTool ("text_editor".data) (some textEditorWriteArgs)).metadata.file_path =
      some ("/t.txt".data) := by
  decide

/-- Claim C7: `classify_tool("developer__create_file", None)` yields
extension "developer", operation FileCreate, metrics_name "file_create"
and detailed_name "developer::file_create". -/
theorem developer_create_file_classification :
    (classifyTool ("developer__create_file".data) none).extension = some ("developer".data) ∧
    (classifyTool ("developer__create_file".data) none).operation = ToolOperation.fileCreate ∧
    (classifyTool ("developer__create_file".data) none).metricsName = ("file_create".data) ∧
    (classifyTool ("developer__create_file".data) none).detailedName =
      ("developer::file_create".data) := by
  decide

lemma isDigitCh_ne (c : Char) (h : isDigitCh c = true) :
    c ≠ '%' ∧ c ≠ '_' ∧ c ≠ '-' ∧ c ≠ '+' := by
  refine ⟨?_, ?_, ?_, ?_⟩ <;> rintro rfl <;> simp [isDigitCh] at h

lemma toLower_of_isDigitCh (c : Char) (h : isDigitCh c = true) : c.toLower = c := by
  simp only [isDigitCh, Bool.and_eq_true, decide_eq_true_eq] at h
  simp only [Char.toLower]
  rw [if_neg (by omega)]

lemma likeMatch_pct_any (s : Str) : likeMatch ['%'] s = true := by
  induction s with
  | nil => simp [likeMatch]
  | cons c t ih => simp [likeMatch, ih]

lemma likeMatch_day_pattern (p : Str) : ∀ (q rest : Str), p.length = q.length →
    (∀ c ∈ p, isDigitCh c = true) → (∀ c ∈ q, isDigitCh c = true) →
    (likeMatch (p ++ ['_', '%']) (q ++ '_' :: rest) = true ↔ q = p) := by
  induction p with
  | nil =>
    intro q rest hlen _ _
    obtain rfl : q = [] := by cases q <;> simp_all
    simp [likeMatch, likeMatch_pct_any]
  | cons a p' ih =>
    intro q rest hlen hp hq
    cases q with
    | nil => simp at hlen
    | cons b q' =>
      have ha := hp a (by simp)
      have hb := hq b (by simp)
      have hane := isDigitCh_ne a ha
      rw [List.cons_append, List.cons_append]
      rw [likeMatch]
      rw [if_neg hane.1, if_neg hane.2.1]
      rw [toLower_of_isDigitCh a ha, toLower_of_isDigitCh b hb]
      rw [Bool.and_eq_true, beq_iff_eq,
        ih q' rest (by simpa using hlen) (fun c hc => hp c (by simp [hc]))
          (fun c hc => hq c (by simp [hc]))]
      simp only [List.cons.injEq]
      constructor
      · rintro ⟨rfl, rfl⟩; exact ⟨rfl, rfl⟩
      · rintro ⟨rfl, rfl⟩; exact ⟨rfl, rfl⟩

lemma digitVal_digitChar (k : Nat) (hk : k < 10) : digitVal (digitChar k) = k := by
  interval_cases k <;> decide

lemma isDigitCh_digitChar (k : Nat) (hk : k < 10) : isDigitCh (digitChar k) = true := by
  interval_cases k <;> decide

lemma digitsToNat_append_singleton (s : Str) (c : Char) :
    digitsToNat (s ++ [c]) = 10 * digitsToNat s + digitVal c := by
  simp [digitsToNat, List.foldl_append]

lemma natDigitsRec_all_digits : ∀ (fuel n : Nat), ∀ c ∈ natDigitsRec fuel n, isDigitCh c = true := by
  intro fuel
  induction fuel with
  | zero => intro n c hc; simp [natDigitsRec] at hc
  | succ fuel ih =>
    intro n c hc
    simp only [natDigitsRec] at hc
    by_cases h : n < 10
    · rw [if_pos h] at hc
      simp only [List.mem_singleton] at hc
      subst hc
      exact isDigitCh_digitChar n h
    · rw [if_neg h] at hc
      rcases List.mem_append.mp hc with h1 | h2
      · exact ih _ c h1
      · simp only [List.mem_singleton] at h2
        subst h2
        exact isDigitCh_digitChar _ (Nat.mod_lt _ (by omega))

lemma digitsToNat_natDigitsRec : ∀ (fuel n : Nat), n < fuel →
    digitsToNat (natDigitsRec fuel n) = n := by
  intro fuel
  induction fuel with
  | zero => intro n h; exact absurd h (Nat.not_lt_zero n)
  | succ fuel ih =>
    intro n h
    simp only [natDigitsRec]
    by_cases h10 : n < 10
    · rw [if_pos h10]
      simp [digitsToNat, digitVal_digitChar n h10]
    · rw [if_neg h10, digitsToNat_append_singleton]
      have hdiv : n / 10 < n := Nat.div_lt_self (by omega) (by omega)
      rw [ih (n / 10) (by omega), digitVal_digitChar _ (Nat.mod_lt _ (by omega))]
      omega

lemma natDigits_all_digits (n : Nat) : ∀ c ∈ natDigits n, isDigitCh c = true :=
  natDigitsRec_all_digits _ n

lemma digitsToNat_natDigits (n : Nat) : digitsToNat (natDigits n) = n :=
  digitsToNat_natDigitsRec _ n (Nat.lt_succ_self n)

lemma natDigits_ne_nil (n : Nat) : natDigits n ≠ [] := by
  simp only [natDigits, natDigitsRec]
  by_cases h : n < 10
  · rw [if_pos h]; simp
  · rw [if_neg h]; simp

lemma castTextToInt_digits (s : Str) (hne : s ≠ []) (hdig : ∀ c ∈ s, isDigitCh c = true) :
    castTextToInt s = (digitsToNat s : Int) := by
  cases s with
  | nil => exact absurd rfl hne
  | cons c rest =>
    have hc := hdig c (by simp)
    have h := isDigitCh_ne c hc
    simp only [castTextToInt]
    rw [if_neg h.2.2.1, if_neg h.2.2.2]
    rw [List.takeWhile_eq_self_iff.mpr hdig]

lemma wf_id_drop9 (d : Str) (hd : d.length = 8) (n : Nat) :
    (d ++ '_' :: natDigits n).drop 9 = natDigits n := by
  rw [List.append_cons]
  have h9 : (d ++ ['_']).length = 9 := by simp [hd]
  rw [← h9, List.drop_left]

lemma wf_id_take9 (d : Str) (hd : d.length = 8) (n : Nat) :
    (d ++ '_' :: natDigits n).take 9 = d ++ ['_'] := by
  rw [List.append_cons]
  have h9 : (d ++ ['_']).length = 9 := by simp [hd]
  rw [← h9, List.take_left]

lemma codeVals_eq_specVals (day : Str) (hday8 : day.length = 8)
    (hdaydig : ∀ c ∈ day, isDigitCh c = true) :
    ∀ (ids : List Str), (∀ id ∈ ids, wellFormedSessionId id) →
      (ids.filter (fun id => likeMatch (day ++ ['_', '%']) id)).map
          (fun id => castTextToInt (id.drop 9)) =
        (ids.filterMap (sessionIdSuffix day)).map (fun n : Nat => (n : Int)) := by
  intro ids
  induction ids with
  | nil => intro; simp
  | cons id rest ih =>
    intro hids
    obtain ⟨d, n, hd8, hddig, rfl⟩ := hids id (List.mem_cons_self id rest)
    have hrest : ∀ i ∈ rest, wellFormedSessionId i := fun i hi => hids i (by simp [hi])
    by_cases hmatch : d = day
    · subst hmatch
      have hlike : likeMatch (d ++ ['_', '%']) (d ++ '_' :: natDigits n) = true :=
        (likeMatch_day_pattern d (d) (natDigits n) rfl hddig hddig).mpr rfl
      have hsuf : sessionIdSuffix d (d ++ '_' :: natDigits n) = some (digitsToNat (natDigits n)) := by
        simp [sessionIdSuffix, wf_id_take9 d hd8 n, wf_id_drop9 d hd8 n]
      rw [List.filter_cons_of_pos hlike, List.map_cons, List.filterMap_cons_some hsuf,
        List.map_cons]
      rw [wf_id_drop9 d hd8 n, castTextToInt_digits _ (natDigits_ne_nil n) (natDigits_all_digits n)]
      rw [ih hrest]
    · have hlike : likeMatch (day ++ ['_', '%']) (d ++ '_' :: natDigits n) = false := by
        rw [Bool.eq_false_iff]
        intro hc
        exact hmatch ((likeMatch_day_pattern day d (natDigits n)
          (hday8.trans hd8.symm) hdaydig hddig).mp hc)
      have hsuf : sessionIdSuffix day (d ++ '_' :: natDigits n) = none := by
        simp only [sessionIdSuffix, wf_id_take9 d hd8 n]
        rw [if_neg]
        intro heq
        exact hmatch ((List.append_left_inj ['_']).mp heq)
      rw [List.filter_cons_of_neg (by simp [hlike]), List.filterMap_cons_none hsuf]
      exact ih hrest

lemma foldl_max_int_cast (xs : List Nat) : ∀ (a : Nat),
    (xs.map (fun n : Nat => (n : Int))).foldl max ((a : Nat) : Int) = ((xs.foldl max a : Nat) : Int) := by
  induction xs with
  | nil => intro a; simp
  | cons x xs ih =>
    intro a
    rw [List.map_cons, List.foldl_cons, List.foldl_cons, ← Nat.cast_max, ih]

lemma sqlMax_nat_cast (xs : List Nat) :
    (sqlMaxInt (xs.map (fun n : Nat => (n : Int)))).getD 0 = ((xs.foldl max 0 : Nat) : Int) := by
  cases xs with
  | nil => simp [sqlMaxInt]
  | cons x xs =>
    simp only [List.map_cons, sqlMaxInt, Option.getD_some]
    rw [foldl_max_int_cast xs x, List.foldl_cons]
    congr 2
    omega

/-- Claim C3: for every day (eight decimal digits) and every set of
well-formed existing session ids, the id allocated inside the
create_session transaction is `<day>_<N>` where N is one plus the maximum
numeric suffix among that day's existing session ids, and N = 1 when the
day has none (the fold over the empty suffix set yields 0).  The
read-max-and-insert pair is modelled as the single atomic step
`createSessionId`, matching the enclosing SQL transaction. -/
theorem create_session_next_id (day : Str) (ids : List Str)
    (hday8 : day.length = 8) (hdaydig : ∀ c ∈ day, isDigitCh c = true)
    (hids : ∀ id ∈ ids, wellFormedSessionId id) :
    createSessionId day ids = day ++ '_' :: natDigits (dayMaxSuffix day ids + 1) := by
  simp only [createSessionId, dayMaxSuffix]
  rw [codeVals_eq_specVals day hday8 hdaydig ids hids, sqlMax_nat_cast]
  have hrepr : intRepr ((((ids.filterMap (sessionIdSuffix day)).foldl max 0 : Nat) : Int) + 1) =
      natDigits ((ids.filterMap (sessionIdSuffix day)).foldl max 0 + 1) := by
    rw [intRepr, if_neg (by omega)]
    have hcast : ((((ids.filterMap (sessionIdSuffix day)).foldl max 0 : Nat) : Int) + 1) =
        ((((ids.filterMap (sessionIdSuffix day)).foldl max 0 + 1 : Nat)) : Int) := by
      push_cast
      ring
    rw [hcast, Int.toNat_natCast]
  rw [hrepr]

/-- Witness for C3: with day 20250101 and existing ids 20250101_1 and
20250102_7, the allocated id is 20250101_2. -/
theorem create_session_next_id_witness :
    createSessionId ("20250101".data) [("20250101_1".data), ("20250102_7".data)] =
      ("20250101_2".data) := by
  have h := create_session_next_id ("20250101".data)
    [("20250101_1".data), ("20250102_7".data)] (by decide) (by decide) ?_
  · exact h.trans (by decide)
  · intro id hid
    rcases List.mem_cons.mp hid with rfl | hid'
    · exact ⟨("20250101".data), 1, by decide, by decide, by decide⟩
    · rcases List.mem_cons.mp hid' with rfl | h0
      · exact ⟨("20250102".data), 7, by decide, by decide, by decide⟩
      · exact absurd h0 (List.not_mem_nil id)

/- Conditional update of one column: applies the assignment only when the
builder recorded a value for it. -/
def applyOpt {α} (o : Option α) (f : SessionRow → α → SessionRow) (s : SessionRow) :
    SessionRow :=
  match o with
  | some v => f s v
  | none => s

lemma foldl_optUpdate_applyOpt {α} (o : Option α) (C : α → FieldUpdate) (s : SessionRow) :
    (optUpdate o C).foldl applyField s = applyOpt o (fun r v => applyField r (C v)) s := by
  cases o <;> rfl

lemma collectUpdates_foldl (b : SessionUpdateBuilder) (s : SessionRow) :
    (collectUpdates b).foldl applyField s =
      applyOpt b.recipe (fun r v => { r with recipe_json := v })
        (applyOpt b.schedule_id (fun r v => { r with schedule_id := v })
          (applyOpt b.accumulated_output_tokens
              (fun r v => { r with accumulated_output_tokens := v })
            (applyOpt b.accumulated_input_tokens
                (fun r v => { r with accumulated_input_tokens := v })
              (applyOpt b.accumulated_total_tokens
                  (fun r v => { r with accumulated_total_tokens := v })
                (applyOpt b.output_tokens (fun r v => { r with output_tokens := v })
                  (applyOpt b.input_tokens (fun r v => { r with input_tokens := v })
                    (applyOpt b.total_tokens (fun r v => { r with total_tokens := v })
                      (applyOpt b.extension_data (fun r v => { r with extension_data := v })
                        (applyOpt b.working_dir (fun r v => { r with working_dir := v })
                          (applyOpt b.description (fun r v => { r with description := v })
                            s)))))))))) := by
  simp only [collectUpdates, List.foldl_append, foldl_optUpdate_applyOpt]
  rfl

lemma applyOpt_pres_id {α} (o : Option α) (f : SessionRow → α → SessionRow)
    (h : ∀ r v, (f r v).id = r.id) (s : SessionRow) :
    (applyOpt o f s).id = s.id := by
  cases o <;> simp [applyOpt, h]

lemma applyOpt_pres_description {α} (o : Option α) (f : SessionRow → α → SessionRow)
    (h : ∀ r v, (f r v).description = r.description) (s : SessionRow) :
    (applyOpt o f s).description = s.description := by
  cases o <;> simp [applyOpt, h]

lemma applyOpt_pres_working_dir {α} (o : Option α) (f : SessionRow → α → SessionRow)
    (h : ∀ r v, (f r v).working_dir = r.working_dir) (s : SessionRow) :
    (applyOpt o f s).working_dir = s.working_dir := by
  cases o <;> simp [applyOpt, h]

lemma applyOpt_pres_created_at {α} (o : Option α) (f : SessionRow → α → SessionRow)
    (h : ∀ r v, (f r v).created_at = r.created_at) (s : SessionRow) :
    (applyOpt o f s).created_at = s.created_at := by
  cases o <;> simp [applyOpt, h]

lemma applyOpt_pres_extension_data {α} (o : Option α) (f : SessionRow → α → SessionRow)
    (h : ∀ r v, (f r v).extension_data = r.extension_data) (s : SessionRow) :
    (applyOpt o f s).extension_data = s.extension_data := by
  cases o <;> simp [applyOpt, h]

lemma applyOpt_pres_total_tokens {α} (o : Option α) (f : SessionRow → α → SessionRow)
    (h : ∀ r v, (f r v).total_tokens = r.total_tokens) (s : SessionRow) :
    (applyOpt o f s).total_tokens = s.total_tokens := by
  cases o <;> simp [applyOpt, h]

lemma applyOpt_pres_input_tokens {α} (o : Option α) (f : SessionRow → α → SessionRow)
    (h : ∀ r v, (f r v).input_tokens = r.input_tokens) (s : SessionRow) :
    (applyOpt o f s).input_tokens = s.input_tokens := by
  cases o <;> simp [applyOpt, h]

lemma applyOpt_pres_output_tokens {α} (o : Option α) (f : SessionRow → α → SessionRow)
    (h : ∀ r v, (f r v).output_tokens = r.output_tokens) (s : SessionRow) :
    (applyOpt o f s).output_tokens = s.output_tokens := by
  cases o <;> simp [applyOpt, h]

lemma applyOpt_pres_accumulated_total_tokens {α} (o : Option α) (f : SessionRow → α → SessionRow)
    (h : ∀ r v, (f r v).accumulated_total_tokens = r.accumulated_total_tokens) (s : SessionRow) :
    (applyOpt o f s).accumulated_total_tokens = s.accumulated_total_tokens := by
  cases o <;> simp [applyOpt, h]

lemma applyOpt_pres_accumulated_input_tokens {α} (o : Option α) (f : SessionRow → α → SessionRow)
    (h : ∀ r v, (f r v).accumulated_input_tokens = r.accumulated_input_tokens) (s : SessionRow) :
    (applyOpt o f s).accumulated_input_tokens = s.accumulated_input_tokens := by
  cases o <;> simp [applyOpt, h]

lemma applyOpt_pres_accumulated_output_tokens {α} (o : Option α) (f : SessionRow → α → SessionRow)
    (h : ∀ r v, (f r v).accumulated_output_tokens = r.accumulated_output_tokens) (s : SessionRow) :
    (applyOpt o f s).accumulated_output_tokens = s.accumulated_output_tokens := by
  cases o <;> simp [applyOpt, h]

lemma applyOpt_pres_schedule_id {α} (o : Option α) (f : SessionRow → α → SessionRow)
    (h : ∀ r v, (f r v).schedule_id = r.schedule_id) (s : SessionRow) :
    (applyOpt o f s).schedule_id = s.schedule_id := by
  cases o <;> simp [applyOpt, h]

lemma applyOpt_pres_recipe_json {α} (o : Option α) (f : SessionRow → α → SessionRow)
    (h : ∀ r v, (f r v).recipe_json = r.recipe_json) (s : SessionRow) :
    (applyOpt o f s).recipe_json = s.recipe_json := by
  cases o <;> simp [applyOpt, h]

lemma applyOpt_own_description (o : Option (Str)) (f : SessionRow → (Str) → SessionRow)
    (h : ∀ r v, (f r v).description = v) (s : SessionRow) :
    (applyOpt o f s).description = o.getD s.description := by
  cases o <;> simp [applyOpt, h]

lemma applyOpt_own_working_dir (o : Option (Str)) (f : SessionRow → (Str) → SessionRow)
    (h : ∀ r v, (f r v).working_dir = v) (s : SessionRow) :
    (applyOpt o f s).working_dir = o.getD s.working_dir := by
  cases o <;> simp [applyOpt, h]

lemma applyOpt_own_extension_data (o : Option (Str)) (f : SessionRow → (Str) → SessionRow)
    (h : ∀ r v, (f r v).extension_data = v) (s : SessionRow) :
    (applyOpt o f s).extension_data = o.getD s.extension_data := by
  cases o <;> simp [applyOpt, h]

lemma applyOpt_own_total_tokens (o : Option (Option Int)) (f : SessionRow → (Option Int) → SessionRow)
    (h : ∀ r v, (f r v).total_tokens = v) (s : SessionRow) :
    (applyOpt o f s).total_tokens = o.getD s.total_tokens := by
  cases o <;> simp [applyOpt, h]

lemma applyOpt_own_input_tokens (o : Option (Option Int)) (f : SessionRow → (Option Int) → SessionRow)
    (h : ∀ r v, (f r v).input_tokens = v) (s : SessionRow) :
    (applyOpt o f s).input_tokens = o.getD s.input_tokens := by
  cases o <;> simp [applyOpt, h]

lemma applyOpt_own_output_tokens (o : Option (Option Int)) (f : SessionRow → (Option Int) → SessionRow)
    (h : ∀ r v, (f r v).output_tokens = v) (s : SessionRow) :
    (applyOpt o f s).output_tokens = o.getD s.output_tokens := by
  cases o <;> simp [applyOpt, h]

lemma applyOpt_own_accumulated_total_tokens (o : Option (Option Int)) (f : SessionRow → (Option Int) → SessionRow)
    (h : ∀ r v, (f r v).accumulated_total_tokens = v) (s : SessionRow) :
    (applyOpt o f s).accumulated_total_tokens = o.getD s.accumulated_total_tokens := by
  cases o <;> simp [applyOpt, h]

lemma applyOpt_own_accumulated_input_tokens (o : Option (Option Int)) (f : SessionRow → (Option Int) → SessionRow)
    (h : ∀ r v, (f r v).accumulated_input_tokens = v) (s : SessionRow) :
    (applyOpt o f s).accumulated_input_tokens = o.getD s.accumulated_input_tokens := by
  cases o <;> simp [applyOpt, h]

lemma applyOpt_own_accumulated_output_tokens (o : Option (Option Int)) (f : SessionRow → (Option Int) → SessionRow)
    (h : ∀ r v, (f r v).accumulated_output_tokens = v) (s : SessionRow) :
    (applyOpt o f s).accumulated_output_tokens = o.getD s.accumulated_output_tokens := by
  cases o <;> simp [applyOpt, h]

lemma applyOpt_own_schedule_id (o : Option (Option Str)) (f : SessionRow → (Option Str) → SessionRow)
    (h : ∀ r v, (f r v).schedule_id = v) (s : SessionRow) :
    (applyOpt o f s).schedule_id = o.getD s.schedule_id := by
  cases o <;> simp [applyOpt, h]

lemma applyOpt_own_recipe_json (o : Option (Option Str)) (f : SessionRow → (Option Str) → SessionRow)
    (h : ∀ r v, (f r v).recipe_json = v) (s : SessionRow) :
    (applyOpt o f s).recipe_json = o.getD s.recipe_json := by
  cases o <;> simp [applyOpt, h]

lemma optUpdate_eq_nil {α} (o : Option α) (f : α → FieldUpdate) :
    optUpdate o f = [] ↔ o = none := by
  cases o <;> simp [optUpdate]

/-- Claim C4: applying a session update changes exactly the fields that were
explicitly set (each unset field keeps its previous value, via `Option.getD`),
refreshes `updated_at` on every non-empty update, leaves `id` and
`created_at` untouched, and an update with zero setters (the freshly built
builder) is a no-op that changes nothing, `updated_at` included; the
emptiness test is equivalent to all builder fields being unset. -/
theorem session_update_frame (b : SessionUpdateBuilder) (now : Str) (s : SessionRow) (sid : Str) :
    applyUpdateRow (SessionUpdateBuilder.new sid) now s = s ∧
    applyUpdateRow b now s =
      (if (collectUpdates b).isEmpty then s
       else
         { id := s.id
           description := b.description.getD s.description
           working_dir := b.working_dir.getD s.working_dir
           created_at := s.created_at
           updated_at := now
           extension_data := b.extension_data.getD s.extension_data
           total_tokens := b.total_tokens.getD s.total_tokens
           input_tokens := b.input_tokens.getD s.input_tokens
           output_tokens := b.output_tokens.getD s.output_tokens
           accumulated_total_tokens := b.accumulated_total_tokens.getD s.accumulated_total_tokens
           accumulated_input_tokens := b.accumulated_input_tokens.getD s.accumulated_input_tokens
           accumulated_output_tokens := b.accumulated_output_tokens.getD s.accumulated_output_tokens
           schedule_id := b.schedule_id.getD s.schedule_id
           recipe_json := b.recipe.getD s.recipe_json }) ∧
    ((collectUpdates b).isEmpty = true ↔
      b.description = none ∧ b.working_dir = none ∧ b.extension_data = none ∧
      b.total_tokens = none ∧ b.input_tokens = none ∧ b.output_tokens = none ∧
      b.accumulated_total_tokens = none ∧ b.accumulated_input_tokens = none ∧
      b.accumulated_output_tokens = none ∧ b.schedule_id = none ∧ b.recipe = none) := by
  refine ⟨rfl, ?_, ?_⟩
  · by_cases he : (collectUpdates b).isEmpty = true
    · simp only [applyUpdateRow]
      rw [if_pos he, if_pos he]
    · simp only [applyUpdateRow]
      rw [if_neg he, if_neg he, collectUpdates_foldl]
      simp only [SessionRow.mk.injEq]
      refine ⟨?_, ?_, ?_, ?_, trivial, ?_, ?_, ?_, ?_, ?_, ?_, ?_, ?_, ?_⟩
      · rw [applyOpt_pres_id b.recipe (fun r v => { r with recipe_json := v }) (fun r v => rfl),
          applyOpt_pres_id b.schedule_id (fun r v => { r with schedule_id := v }) (fun r v => rfl),
          applyOpt_pres_id b.accumulated_output_tokens (fun r v => { r with accumulated_output_tokens := v }) (fun r v => rfl),
          applyOpt_pres_id b.accumulated_input_tokens (fun r v => { r with accumulated_input_tokens := v }) (fun r v => rfl),
          applyOpt_pres_id b.accumulated_total_tokens (fun r v => { r with accumulated_total_tokens := v }) (fun r v => rfl),
          applyOpt_pres_id b.output_tokens (fun r v => { r with output_tokens := v }) (fun r v => rfl),
          applyOpt_pres_id b.input_tokens (fun r v => { r with input_tokens := v }) (fun r v => rfl),
          applyOpt_pres_id b.total_tokens (fun r v => { r with total_tokens := v }) (fun r v => rfl),
          applyOpt_pres_id b.extension_data (fun r v => { r with extension_data := v }) (fun r v => rfl),
          applyOpt_pres_id b.working_dir (fun r v => { r with working_dir := v }) (fun r v => rfl),
          applyOpt_pres_id b.description (fun r v => { r with description := v }) (fun r v => rfl)]
      · rw [applyOpt_pres_description b.recipe (fun r v => { r with recipe_json := v }) (fun r v => rfl),
          applyOpt_pres_description b.schedule_id (fun r v => { r with schedule_id := v }) (fun r v => rfl),
          applyOpt_pres_description b.accumulated_output_tokens (fun r v => { r with accumulated_output_tokens := v }) (fun r v => rfl),
          applyOpt_pres_description b.accumulated_input_tokens (fun r v => { r with accumulated_input_tokens := v }) (fun r v => rfl),
          applyOpt_pres_description b.accumulated_total_tokens (fun r v => { r with accumulated_total_tokens := v }) (fun r v => rfl),
          applyOpt_pres_description b.output_tokens (fun r v => { r with output_tokens := v }) (fun r v => rfl),
          applyOpt_pres_description b.input_tokens (fun r v => { r with input_tokens := v }) (fun r v => rfl),
          applyOpt_pres_description b.total_tokens (fun r v => { r with total_tokens := v }) (fun r v => rfl),
          applyOpt_pres_description b.extension_data (fun r v => { r with extension_data := v }) (fun r v => rfl),
          applyOpt_pres_description b.working_dir (fun r v => { r with working_dir := v }) (fun r v => rfl),
          applyOpt_own_description b.description (fun r v => { r with description := v }) (fun r v => rfl)]
      · rw [applyOpt_pres_working_dir b.recipe (fun r v => { r with recipe_json := v }) (fun r v => rfl),
          applyOpt_pres_working_dir b.schedule_id (fun r v => { r with schedule_id := v }) (fun r v => rfl),
          applyOpt_pres_working_dir b.accumulated_output_tokens (fun r v => { r with accumulated_output_tokens := v }) (fun r v => rfl),
          applyOpt_pres_working_dir b.accumulated_input_tokens (fun r v => { r with accumulated_input_tokens := v }) (fun r v => rfl),
          applyOpt_pres_working_dir b.accumulated_total_tokens (fun r v => { r with accumulated_total_tokens := v }) (fun r v => rfl),
          applyOpt_pres_working_dir b.output_tokens (fun r v => { r with output_tokens := v }) (fun r v => rfl),
          applyOpt_pres_working_dir b.input_tokens (fun r v => { r with input_tokens := v }) (fun r v => rfl),
          applyOpt_pres_working_dir b.total_tokens (fun r v => { r with total_tokens := v }) (fun r v => rfl),
          applyOpt_pres_working_dir b.extension_data (fun r v => { r with extension_data := v }) (fun r v => rfl),
          applyOpt_own_working_dir b.working_dir (fun r v => { r with working_dir := v }) (fun r v => rfl),
          applyOpt_pres_working_dir b.description (fun r v => { r with description := v }) (fun r v => rfl)]
      · rw [applyOpt_pres_created_at b.recipe (fun r v => { r with recipe_json := v }) (fun r v => rfl),
          applyOpt_pres_created_at b.schedule_id (fun r v => { r with schedule_id := v }) (fun r v => rfl),
          applyOpt_pres_created_at b.accumulated_output_tokens (fun r v => { r with accumulated_output_tokens := v }) (fun r v => rfl),
          applyOpt_pres_created_at b.accumulated_input_tokens (fun r v => { r with accumulated_input_tokens := v }) (fun r v => rfl),
          applyOpt_pres_created_at b.accumulated_total_tokens (fun r v => { r with accumulated_total_tokens := v }) (fun r v => rfl),
          applyOpt_pres_created_at b.output_tokens (fun r v => { r with output_tokens := v }) (fun r v => rfl),
          applyOpt_pres_created_at b.input_tokens (fun r v => { r with input_tokens := v }) (fun r v => rfl),
          applyOpt_pres_created_at b.total_tokens (fun r v => { r with total_tokens := v }) (fun r v => rfl),
          applyOpt_pres_created_at b.extension_data (fun r v => { r with extension_data := v }) (fun r v => rfl),
          applyOpt_pres_created_at b.working_dir (fun r v => { r with working_dir := v }) (fun r v => rfl),
          applyOpt_pres_created_at b.description (fun r v => { r with description := v }) (fun r v => rfl)]
      · rw [applyOpt_pres_extension_data b.recipe (fun r v => { r with recipe_json := v }) (fun r v => rfl),
          applyOpt_pres_extension_data b.schedule_id (fun r v => { r with schedule_id := v }) (fun r v => rfl),
          applyOpt_pres_extension_data b.accumulated_output_tokens (fun r v => { r with accumulated_output_tokens := v }) (fun r v => rfl),
          applyOpt_pres_extension_data b.accumulated_input_tokens (fun r v => { r with accumulated_input_tokens := v }) (fun r v => rfl),
          applyOpt_pres_extension_data b.accumulated_total_tokens (fun r v => { r with accumulated_total_tokens := v }) (fun r v => rfl),
          applyOpt_pres_extension_data b.output_tokens (fun r v => { r with output_tokens := v }) (fun r v => rfl),
          applyOpt_pres_extension_data b.input_tokens (fun r v => { r with input_tokens := v }) (fun r v => rfl),
          applyOpt_pres_extension_data b.total_tokens (fun r v => { r with total_tokens := v }) (fun r v => rfl),
          applyOpt_own_extension_data b.extension_data (fun r v => { r with extension_data := v }) (fun r v => rfl),
          applyOpt_pres_extension_data b.working_dir (fun r v => { r with working_dir := v }) (fun r v => rfl),
          applyOpt_pres_extension_data b.description (fun r v => { r with description := v }) (fun r v => rfl)]
      · rw [applyOpt_pres_total_tokens b.recipe (fun r v => { r with recipe_json := v }) (fun r v => rfl),
          applyOpt_pres_total_tokens b.schedule_id (fun r v => { r with schedule_id := v }) (fun r v => rfl),
          applyOpt_pres_total_tokens b.accumulated_output_tokens (fun r v => { r with accumulated_output_tokens := v }) (fun r v => rfl),
          applyOpt_pres_total_tokens b.accumulated_input_tokens (fun r v => { r with accumulated_input_tokens := v }) (fun r v => rfl),
          applyOpt_pres_total_tokens b.accumulated_total_tokens (fun r v => { r with accumulated_total_tokens := v }) (fun r v => rfl),
          applyOpt_pres_total_tokens b.output_tokens (fun r v => { r with output_tokens := v }) (fun r v => rfl),
          applyOpt_pres_total_tokens b.input_tokens (fun r v => { r with input_tokens := v }) (fun r v => rfl),
          applyOpt_own_total_tokens b.total_tokens (fun r v => { r with total_tokens := v }) (fun r v => rfl),
          applyOpt_pres_total_tokens b.extension_data (fun r v => { r with extension_data := v }) (fun r v => rfl),
          applyOpt_pres_total_tokens b.working_dir (fun r v => { r with working_dir := v }) (fun r v => rfl),
          applyOpt_pres_total_tokens b.description (fun r v => { r with description := v }) (fun r v => rfl)]
      · rw [applyOpt_pres_input_tokens b.recipe (fun r v => { r with recipe_json := v }) (fun r v => rfl),
          applyOpt_pres_input_tokens b.schedule_id (fun r v => { r with schedule_id := v }) (fun r v => rfl),
          applyOpt_pres_input_tokens b.accumulated_output_tokens (fun r v => { r with accumulated_output_tokens := v }) (fun r v => rfl),
          applyOpt_pres_input_tokens b.accumulated_input_tokens (fun r v => { r with accumulated_input_tokens := v }) (fun r v => rfl),
          applyOpt_pres_input_tokens b.accumulated_total_tokens (fun r v => { r with accumulated_total_tokens := v }) (fun r v => rfl),
          applyOpt_pres_input_tokens b.output_tokens (fun r v => { r with output_tokens := v }) (fun r v => rfl),
          applyOpt_own_input_tokens b.input_tokens (fun r v => { r with input_tokens := v }) (fun r v => rfl),
          applyOpt_pres_input_tokens b.total_tokens (fun r v => { r with total_tokens := v }) (fun r v => rfl),
          applyOpt_pres_input_tokens b.extension_data (fun r v => { r with extension_data := v }) (fun r v => rfl),
          applyOpt_pres_input_tokens b.working_dir (fun r v => { r with working_dir := v }) (fun r v => rfl),
          applyOpt_pres_input_tokens b.description (fun r v => { r with description := v }) (fun r v => rfl)]
      · rw [applyOpt_pres_output_tokens b.recipe (fun r v => { r with recipe_json := v }) (fun r v => rfl),
          applyOpt_pres_output_tokens b.schedule_id (fun r v => { r with schedule_id := v }) (fun r v => rfl),
          applyOpt_pres_output_tokens b.accumulated_output_tokens (fun r v => { r with accumulated_output_tokens := v }) (fun r v => rfl),
          applyOpt_pres_output_tokens b.accumulated_input_tokens (fun r v => { r with accumulated_input_tokens := v }) (fun r v => rfl),
          applyOpt_pres_output_tokens b.accumulated_total_tokens (fun r v => { r with accumulated_total_tokens := v }) (fun r v => rfl),
          applyOpt_own_output_tokens b.output_tokens (fun r v => { r with output_tokens := v }) (fun r v => rfl),
          applyOpt_pres_output_tokens b.input_tokens (fun r v => { r with input_tokens := v }) (fun r v => rfl),
          applyOpt_pres_output_tokens b.total_tokens (fun r v => { r with total_tokens := v }) (fun r v => rfl),
          applyOpt_pres_output_tokens b.extension_data (fun r v => { r with extension_data := v }) (fun r v => rfl),
          applyOpt_pres_output_tokens b.working_dir (fun r v => { r with working_dir := v }) (fun r v => rfl),
          applyOpt_pres_output_tokens b.description (fun r v => { r with description := v }) (fun r v => rfl)]
      · rw [applyOpt_pres_accumulated_total_tokens b.recipe (fun r v => { r with recipe_json := v }) (fun r v => rfl),
          applyOpt_pres_accumulated_total_tokens b.schedule_id (fun r v => { r with schedule_id := v }) (fun r v => rfl),
          applyOpt_pres_accumulated_total_tokens b.accumulated_output_tokens (fun r v => { r with accumulated_output_tokens := v }) (fun r v => rfl),
          applyOpt_pres_accumulated_total_tokens b.accumulated_input_tokens (fun r v => { r with accumulated_input_tokens := v }) (fun r v => rfl),
          applyOpt_own_accumulated_total_tokens b.accumulated_total_tokens (fun r v => { r with accumulated_total_tokens := v }) (fun r v => rfl),
          applyOpt_pres_accumulated_total_tokens b.output_tokens (fun r v => { r with output_tokens := v }) (fun r v => rfl),
          applyOpt_pres_accumulated_total_tokens b.input_tokens (fun r v => { r with input_tokens := v }) (fun r v => rfl),
          applyOpt_pres_accumulated_total_tokens b.total_tokens (fun r v => { r with total_tokens := v }) (fun r v => rfl),
          applyOpt_pres_accumulated_total_tokens b.extension_data (fun r v => { r with extension_data := v }) (fun r v => rfl),
          applyOpt_pres_accumulated_total_tokens b.working_dir (fun r v => { r with working_dir := v }) (fun r v => rfl),
          applyOpt_pres_accumulated_total_tokens b.description (fun r v => { r with description := v }) (fun r v => rfl)]
      · rw [applyOpt_pres_accumulated_input_tokens b.recipe (fun r v => { r with recipe_json := v }) (fun r v => rfl),
          applyOpt_pres_accumulated_input_tokens b.schedule_id (fun r v => { r with schedule_id := v }) (fun r v => rfl),
          applyOpt_pres_accumulated_input_tokens b.accumulated_output_tokens (fun r v => { r with accumulated_output_tokens := v }) (fun r v => rfl),
          applyOpt_own_accumulated_input_tokens b.accumulated_input_tokens (fun r v => { r with accumulated_input_tokens := v }) (fun r v => rfl),
          applyOpt_pres_accumulated_input_tokens b.accumulated_total_tokens (fun r v => { r with accumulated_total_tokens := v }) (fun r v => rfl),
          applyOpt_pres_accumulated_input_tokens b.output_tokens (fun r v => { r with output_tokens := v }) (fun r v => rfl),
          applyOpt_pres_accumulated_input_tokens b.input_tokens (fun r v => { r with input_tokens := v }) (fun r v => rfl),
          applyOpt_pres_accumulated_input_tokens b.total_tokens (fun r v => { r with total_tokens := v }) (fun r v => rfl),
          applyOpt_pres_accumulated_input_tokens b.extension_data (fun r v => { r with extension_data := v }) (fun r v => rfl),
          applyOpt_pres_accumulated_input_tokens b.working_dir (fun r v => { r with working_dir := v }) (fun r v => rfl),
          applyOpt_pres_accumulated_input_tokens b.description (fun r v => { r with description := v }) (fun r v => rfl)]
      · rw [applyOpt_pres_accumulated_output_tokens b.recipe (fun r v => { r with recipe_json := v }) (fun r v => rfl),
          applyOpt_pres_accumulated_output_tokens b.schedule_id (fun r v => { r with schedule_id := v }) (fun r v => rfl),
          applyOpt_own_accumulated_output_tokens b.accumulated_output_tokens (fun r v => { r with accumulated_output_tokens := v }) (fun r v => rfl),
          applyOpt_pres_accumulated_output_tokens b.accumulated_input_tokens (fun r v => { r with accumulated_input_tokens := v }) (fun r v => rfl),
          applyOpt_pres_accumulated_output_tokens b.accumulated_total_tokens (fun r v => { r with accumulated_total_tokens := v }) (fun r v => rfl),
          applyOpt_pres_accumulated_output_tokens b.output_tokens (fun r v => { r with output_tokens := v }) (fun r v => rfl),
          applyOpt_pres_accumulated_output_tokens b.input_tokens (fun r v => { r with input_tokens := v }) (fun r v => rfl),
          applyOpt_pres_accumulated_output_tokens b.total_tokens (fun r v => { r with total_tokens := v }) (fun r v => rfl),
          applyOpt_pres_accumulated_output_tokens b.extension_data (fun r v => { r with extension_data := v }) (fun r v => rfl),
          applyOpt_pres_accumulated_output_tokens b.working_dir (fun r v => { r with working_dir := v }) (fun r v => rfl),
          applyOpt_pres_accumulated_output_tokens b.description (fun r v => { r with description := v }) (fun r v => rfl)]
      · rw [applyOpt_pres_schedule_id b.recipe (fun r v => { r with recipe_json := v }) (fun r v => rfl),
          applyOpt_own_schedule_id b.schedule_id (fun r v => { r with schedule_id := v }) (fun r v => rfl),
          applyOpt_pres_schedule_id b.accumulated_output_tokens (fun r v => { r with accumulated_output_tokens := v }) (fun r v => rfl),
          applyOpt_pres_schedule_id b.accumulated_input_tokens (fun r v => { r with accumulated_input_tokens := v }) (fun r v => rfl),
          applyOpt_pres_schedule_id b.accumulated_total_tokens (fun r v => { r with accumulated_total_tokens := v }) (fun r v => rfl),
          applyOpt_pres_schedule_id b.output_tokens (fun r v => { r with output_tokens := v }) (fun r v => rfl),
          applyOpt_pres_schedule_id b.input_tokens (fun r v => { r with input_tokens := v }) (fun r v => rfl),
          applyOpt_pres_schedule_id b.total_tokens (fun r v => { r with total_tokens := v }) (fun r v => rfl),
          applyOpt_pres_schedule_id b.extension_data (fun r v => { r with extension_data := v }) (fun r v => rfl),
          applyOpt_pres_schedule_id b.working_dir (fun r v => { r with working_dir := v }) (fun r v => rfl),
          applyOpt_pres_schedule_id b.description (fun r v => { r with description := v }) (fun r v => rfl)]
      · rw [applyOpt_own_recipe_json b.recipe (fun r v => { r with recipe_json := v }) (fun r v => rfl),
          applyOpt_pres_recipe_json b.schedule_id (fun r v => { r with schedule_id := v }) (fun r v => rfl),
          applyOpt_pres_recipe_json b.accumulated_output_tokens (fun r v => { r with accumulated_output_tokens := v }) (fun r v => rfl),
          applyOpt_pres_recipe_json b.accumulated_input_tokens (fun r v => { r with accumulated_input_tokens := v }) (fun r v => rfl),
          applyOpt_pres_recipe_json b.accumulated_total_tokens (fun r v => { r with accumulated_total_tokens := v }) (fun r v => rfl),
          applyOpt_pres_recipe_json b.output_tokens (fun r v => { r with output_tokens := v }) (fun r v => rfl),
          applyOpt_pres_recipe_json b.input_tokens (fun r v => { r with input_tokens := v }) (fun r v => rfl),
          applyOpt_pres_recipe_json b.total_tokens (fun r v => { r with total_tokens := v }) (fun r v => rfl),
          applyOpt_pres_recipe_json b.extension_data (fun r v => { r with extension_data := v }) (fun r v => rfl),
          applyOpt_pres_recipe_json b.working_dir (fun r v => { r with working_dir := v }) (fun r v => rfl),
          applyOpt_pres_recipe_json b.description (fun r v => { r with description := v }) (fun r v => rfl)]
  · rw [List.isEmpty_iff]
    simp [collectUpdates, List.append_eq_nil, optUpdate_eq_nil]

lemma orderedInsert_append_last (a x : MessageRow) (hax : a.timestamp ≤ x.timestamp) :
    ∀ s : List MessageRow,
      List.orderedInsert (fun u v => u.timestamp ≤ v.timestamp) a (s ++ [x]) =
        List.orderedInsert (fun u v => u.timestamp ≤ v.timestamp) a s ++ [x] := by
  intro s
  induction s with
  | nil => simp [List.orderedInsert, hax]
  | cons b t ih =>
    simp only [List.cons_append, List.orderedInsert, List.append_eq]
    by_cases hb : a.timestamp ≤ b.timestamp
    · rw [if_pos hb, if_pos hb]
      rfl
    · rw [if_neg hb, if_neg hb, ih]
      rfl

lemma insertionSort_append_last (x : MessageRow) :
    ∀ (l : List MessageRow), (∀ r ∈ l, r.timestamp ≤ x.timestamp) →
      List.insertionSort (fun u v => u.timestamp ≤ v.timestamp) (l ++ [x]) =
        List.insertionSort (fun u v => u.timestamp ≤ v.timestamp) l ++ [x] := by
  intro l
  induction l with
  | nil => intro; simp [List.insertionSort]
  | cons a t ih =>
    intro hl
    simp only [List.cons_append, List.insertionSort, List.append_eq]
    rw [ih (fun r hr => hl r (List.mem_cons_of_mem a hr))]
    exact orderedInsert_append_last a x (hl a (List.mem_cons_self a t)) _

lemma rowsToMessages_append_valid (sid : Str) (m : Message) (ts : Nat) :
    ∀ l, rowsToMessages (l ++ [mkMessageRow sid m ts]) =
      (rowsToMessages l).map (fun ms => ms ++ [m]) := by
  intro l
  induction l with
  | nil =>
    cases m with
    | mk role created content =>
      cases role <;> simp [rowsToMessages, mkMessageRow, roleToString, Except.map]
  | cons r t ih =>
    simp only [List.cons_append, rowsToMessages, List.append_eq]
    by_cases hu : r.role = ("user".data)
    · rw [if_pos hu, if_pos hu]
      cases hc : r.content_json with
      | valid c =>
        rw [ih]
        rcases hr : rowsToMessages t with e | ms <;> simp [Except.map]
      | malformed => rfl
    · rw [if_neg hu, if_neg hu]
      by_cases ha : r.role = ("assistant".data)
      · rw [if_pos ha, if_pos ha]
        cases hc : r.content_json with
        | valid c =>
          rw [ih]
          rcases hr : rowsToMessages t with e | ms <;> simp [Except.map]
        | malformed => rfl
      · rw [if_neg ha, if_neg ha]
        exact ih

lemma rowsToMessages_append_alien (r : MessageRow)
    (hu : r.role ≠ ("user".data)) (ha : r.role ≠ ("assistant".data)) :
    ∀ l, rowsToMessages (l ++ [r]) = rowsToMessages l := by
  intro l
  induction l with
  | nil => simp [rowsToMessages, if_neg hu, if_neg ha]
  | cons q t ih =>
    simp only [List.cons_append, rowsToMessages, List.append_eq]
    by_cases hqu : q.role = ("user".data)
    · rw [if_pos hqu, if_pos hqu, ih]
    · rw [if_neg hqu, if_neg hqu]
      by_cases hqa : q.role = ("assistant".data)
      · rw [if_pos hqa, if_pos hqa, ih]
      · rw [if_neg hqa, if_neg hqa]
        exact ih

/-- Claim C5: appending a message and reading the conversation back returns
the prior sequence with the message appended, its role, content and
created_timestamp intact (the read is ordered by the storage timestamp, so
the new row, carrying the largest timestamp, comes last); and appending a
row whose role is neither "user" nor "assistant" leaves the read result
unchanged — it is silently dropped instead of failing the read. -/
theorem append_then_read_round_trip (rows : List MessageRow) (sid : Str) (m : Message)
    (ts : Nat) (prior : List Message)
    (hts : ∀ r ∈ rows, r.session_id = sid → r.timestamp < ts)
    (hprior : getConversation rows sid = .ok prior) :
    getConversation (addMessage rows sid m ts) sid = .ok (prior ++ [m]) ∧
    (∀ r : MessageRow, r.session_id = sid → r.role ≠ ("user".data) →
      r.role ≠ ("assistant".data) →
      (∀ q ∈ rows, q.session_id = sid → q.timestamp < r.timestamp) →
      getConversation (rows ++ [r]) sid = .ok prior) := by
  constructor
  · unfold getConversation addMessage
    rw [List.filter_append]
    have hnew : (List.filter (fun r => r.session_id == sid) [mkMessageRow sid m ts]) =
        [mkMessageRow sid m ts] := by
      simp [mkMessageRow]
    rw [hnew, insertionSort_append_last _ _ ?hle, rowsToMessages_append_valid]
    case hle =>
      intro r hr
      rcases List.mem_filter.mp hr with ⟨hmem, hsid⟩
      exact Nat.le_of_lt (hts r hmem (by simpa using hsid))
    unfold getConversation at hprior
    rw [hprior]
    rfl
  · intro r hrsid hu ha hmax
    unfold getConversation
    rw [List.filter_append]
    have hone : (List.filter (fun q => q.session_id == sid) [r]) = [r] := by
      simp [hrsid]
    rw [hone, insertionSort_append_last _ _ ?hle2, rowsToMessages_append_alien r hu ha]
    case hle2 =>
      intro q hq
      rcases List.mem_filter.mp hq with ⟨hmem, hsid⟩
      exact Nat.le_of_lt (hmax q hmem (by simpa using hsid))
    unfold getConversation at hprior
    exact hprior

/-- Witness for C5: on the empty store, appending a user message with
created_timestamp 42 reads back as exactly that message, and a row with
role "system" is dropped. -/
theorem append_then_read_round_trip_witness :
    getConversation
        (addMessage [] ("s1".data) { role := Role.user, created := 42, content := ("c".data) } 1)
        ("s1".data) =
      .ok [{ role := Role.user, created := 42, content := ("c".data) }] ∧
    getConversation
        [{ session_id := ("s1".data), role := ("system".data), content_json := .valid ("c".data),
           created_timestamp := 7, timestamp := 3, tokens := none }] ("s1".data) = .ok [] := by
  have h := append_then_read_round_trip [] ("s1".data)
    { role := Role.user, created := 42, content := ("c".data) } 1 []
    (by simp) (by rfl)
  refine ⟨h.1, ?_⟩
  have h2 := h.2
    { session_id := ("s1".data), role := ("system".data), content_json := .valid ("c".data),
      created_timestamp := 7, timestamp := 3, tokens := none }
    rfl (by decide) (by decide) (by simp)
  simpa using h2

lemma durations_map_eq (sess : List ToolEventRow) :
    (sess.filter (fun r => r.duration_ms.isSome)).filterMap
        (fun r => r.duration_ms.map (fun d : Int => (d : ℚ))) =
      (sess.filterMap (fun r => r.duration_ms)).map (fun d : Int => (d : ℚ)) := by
  induction sess with
  | nil => rfl
  | cons r t ih =>
    cases h : r.duration_ms <;>
      simp [List.filter_cons, List.filterMap_cons, h, ih]

/-- Claim C6: the avg_duration_ms returned by get_tool_stats is the
arithmetic mean of duration_ms over exactly the session's events whose
duration_ms is non-null, and 0 when no such event exists (the AVG query
returns NULL then, and unwrap_or(0.0) applies). -/
theorem tool_stats_avg_duration (rows : List ToolEventRow) (sid : Str) :
    (getToolStats rows sid).avg_duration_ms = specAvgDuration rows sid := by
  simp only [getToolStats, specAvgDuration]
  rw [durations_map_eq]
  cases hd : (rows.filter (fun r => r.session_id == sid)).filterMap
      (fun r => r.duration_ms) with
  | nil => simp [sqlAvg]
  | cons d t => simp [sqlAvg]

lemma completeUpdate_no_match (rows : List ToolEventRow) (eventId : Nat) (st : Str)
    (e : Option Str) (t : ℚ) (h : ∀ r ∈ rows, r.id ≠ eventId) :
    completeUpdateRows rows eventId st e t = rows := by
  induction rows with
  | nil => rfl
  | cons r rest ih =>
    simp only [completeUpdateRows, List.map_cons]
    rw [if_neg (h r (List.mem_cons_self r rest))]
    have := ih (fun q hq => h q (List.mem_cons_of_mem r hq))
    simp only [completeUpdateRows] at this
    rw [this]

/-- Claim C10: record_tool_complete reports success for every event id — it
is the plain Ok of the row-wise UPDATE; when no row carries the id the
table is unchanged (and the call still succeeds), and completing an
already-completed event silently overwrites status, error_message and
completed_at and recomputes duration_ms from the original started_at: a
second completion equals a single completion with the later arguments. -/
theorem record_tool_complete_always_ok (rows : List ToolEventRow) (eventId : Nat)
    (st1 st2 : Str) (e1 e2 : Option Str) (t1 t2 : ℚ) :
    (∃ rows', recordToolComplete rows eventId st1 e1 t1 = .ok rows') ∧
    ((∀ r ∈ rows, r.id ≠ eventId) → recordToolComplete rows eventId st1 e1 t1 = .ok rows) ∧
    completeUpdateRows (completeUpdateRows rows eventId st1 e1 t1) eventId st2 e2 t2 =
      completeUpdateRows rows eventId st2 e2 t2 := by
  refine ⟨⟨_, rfl⟩, ?_, ?_⟩
  · intro h
    unfold recordToolComplete
    rw [completeUpdate_no_match rows eventId st1 e1 t1 h]
  · simp only [completeUpdateRows, List.map_map]
    apply List.map_congr_left
    intro r hr
    by_cases hid : r.id = eventId
    · simp [Function.comp, hid]
    · simp [Function.comp, hid]

/- A running ledger row used by the C10 witness. -/
def toolRow0 : ToolEventRow :=
  { id := 3, session_id := ("s".data), tool_name := ("t".data),
    status := ("running".data), error_message := none, started_at := 0,
    completed_at := none, duration_ms := none, operation_type := none, file_path := none }

/-- Witness for C10: completing the nonexistent event id 5 succeeds and
leaves the single-row table unchanged. -/
theorem record_tool_complete_always_ok_witness :
    recordToolComplete [toolRow0] 5 ("success".data) none 1 = .ok [toolRow0] :=
  (record_tool_complete_always_ok [toolRow0] 5 ("success".data) ("cancelled".data)
    none none 1 2).2.1 (by decide)

lemma createIndex_versionLog (n : Str) (db db' : DbSchema)
    (h : createIndex n db = .ok db') : db'.versionLog = db.versionLog := by
  unfold createIndex at h
  by_cases hm : n ∈ db.indexes
  · rw [if_pos hm] at h
    cases h
  · rw [if_neg hm] at h
    cases h
    rfl

lemma applyMigration_versionLog (v : Nat) (db db' : DbSchema)
    (h : applyMigration v db = .ok db') : db'.versionLog = db.versionLog := by
  match v with
  | 0 => simp [applyMigration] at h
  | 1 =>
    simp only [applyMigration] at h
    cases h
    rfl
  | 2 =>
    simp only [applyMigration] at h
    by_cases h2 : db.hasToolEventsTable
    · rw [if_pos h2] at h
      cases h
    · rw [if_neg h2] at h
      cases hc1 : createIndex idxToolEventsSession { db with hasToolEventsTable := true } with
      | error e =>
        simp only [hc1] at h
        cases h
      | ok db1 =>
        simp only [hc1] at h
        cases hc2 : createIndex idxToolEventsToolName db1 with
        | error e =>
          simp only [hc2] at h
          cases h
        | ok db2 =>
          simp only [hc2] at h
          rw [createIndex_versionLog _ _ _ h, createIndex_versionLog _ _ _ hc2,
            createIndex_versionLog _ _ _ hc1]
  | 3 =>
    simp only [applyMigration] at h
    by_cases h3 : db.hasToolEventsTable
    · rw [if_neg (by simp [h3])] at h
      by_cases hop : db.toolEventsHasOperationType
      · rw [if_pos hop] at h
        cases h
      · rw [if_neg hop] at h
        by_cases hfp : db.toolEventsHasFilePath
        · rw [if_pos hfp] at h
          cases h
        · rw [if_neg hfp] at h
          cases hc1 : createIndex idxToolEventsOperation
              { db with toolEventsHasOperationType := true,
                        toolEventsHasFilePath := true } with
          | error e =>
            simp only [hc1] at h
            cases h
          | ok db1 =>
            simp only [hc1] at h
            rw [createIndex_versionLog _ _ _ h, createIndex_versionLog _ _ _ hc1]
    · rw [if_pos (by simp [h3])] at h
      cases h
  | n + 4 => simp [applyMigration] at h

lemma migrateSeq_log : ∀ (versions : List Nat) (db db' : DbSchema),
    migrateSeq versions db = .ok db' → db'.versionLog = db.versionLog ++ versions := by
  intro versions
  induction versions with
  | nil =>
    intro db db' h
    cases h
    simp
  | cons v rest ih =>
    intro db db' h
    simp only [migrateSeq] at h
    cases ha : applyMigration v db with
    | error e =>
      simp only [ha] at h
      cases h
    | ok db1 =>
      simp only [ha] at h
      rw [ih _ _ h]
      simp [recordVersion, applyMigration_versionLog v db db1 ha]

/-- Claim C8: apply_migration fails with "Unknown migration version" for
every version other than 1, 2 and 3; and whenever run_migrations succeeds
it has applied the versions current+1 .. 3 one at a time in ascending
order, appending each to the schema_version log immediately after its
migration succeeded — the log is extended by exactly that ascending
range. -/
theorem migration_versions_and_order :
    (∀ (v : Nat) (db : DbSchema), v ≠ 1 → v ≠ 2 → v ≠ 3 →
      applyMigration v db = .error (.unknownVersion v)) ∧
    (∀ (db db' : DbSchema), runMigrations db = .ok db' →
      db'.versionLog = db.versionLog ++
        List.range' (getSchemaVersion db + 1)
          (CURRENT_SCHEMA_VERSION - getSchemaVersion db)) := by
  constructor
  · intro v db h1 h2 h3
    match v with
    | 0 => rfl
    | 1 => exact absurd rfl h1
    | 2 => exact absurd rfl h2
    | 3 => exact absurd rfl h3
    | n + 4 => rfl
  · intro db db' h
    unfold runMigrations at h
    by_cases hlt : getSchemaVersion db < CURRENT_SCHEMA_VERSION
    · rw [if_pos hlt] at h
      exact migrateSeq_log _ db db' h
    · rw [if_neg hlt] at h
      cases h
      have h0 : CURRENT_SCHEMA_VERSION - getSchemaVersion db = 0 := by omega
      simp [h0]

/-- Witness for C8: version 7 is rejected on the fresh database, and
migrating the fresh version-0 database to version 3 records the log
[1, 2, 3]. -/
theorem migration_versions_and_order_witness :
    applyMigration 7 freshMigrationDb = .error (.unknownVersion 7) ∧
    migratedDb.versionLog = freshMigrationDb.versionLog ++
      List.range' (getSchemaVersion freshMigrationDb + 1)
        (CURRENT_SCHEMA_VERSION - getSchemaVersion freshMigrationDb) := by
  constructor
  · exact migration_versions_and_order.1 7 freshMigrationDb
      (by decide) (by decide) (by decide)
  · exact migration_versions_and_order.2 freshMigrationDb migratedDb (by rfl)

/-- Claim C9: get_insights returns total_sessions equal to the number of
session rows, and total_tokens equal to the sum over sessions of the
cumulative token counter when present, else the per-turn counter when
present, else zero. -/
theorem insights_totals (rows : List SessionRow) :
    (getInsights rows).total_sessions = rows.length ∧
    (getInsights rows).total_tokens =
      (rows.map (fun r => r.accumulated_total_tokens.getD (r.total_tokens.getD 0))).sum := by
  constructor
  · rfl
  · simp only [getInsights]
    have hco : rows.map coalesceTokens =
        rows.map (fun r => r.accumulated_total_tokens.getD (r.total_tokens.getD 0)) := by
      apply List.map_congr_left
      intro r hr
      cases h1 : r.accumulated_total_tokens <;> cases h2 : r.total_tokens <;>
        simp [coalesceTokens, h1, h2]
    rw [hco]
    cases hm : rows.map (fun r => r.accumulated_total_tokens.getD (r.total_tokens.getD 0)) with
    | nil => simp [sqlSumInt]
    | cons x t => simp [sqlSumInt]
